import Mathlib

/-!
Shallow embedding of the Joyxora landing-page backend (src/index.js, the
variant whose auth routes live at lines 158-367).  The Postgres `signup`
table becomes a list of records; each Express handler becomes a pure
function from a store and its request inputs to a response and the new
store.  Time (`Date.now()` / SQL `NOW()`) and the random reset token
(`crypto.randomBytes`) are passed in as explicit arguments.  Outbound
email is fire-and-forget in the source and does not affect any response
or store write, so it is omitted.
-/

namespace Joyxora

/-- A row of the `signup` table (see the CREATE TABLE at src/index.js:29-38).
`password` holds the bcrypt digest; `resetToken`/`resetExpires` model the
nullable `reset_token`/`reset_expires` columns; timestamps are naturals
(milliseconds). -/
structure UserRec where
  id : Nat
  username : String
  email : String
  password : String
  resetToken : Option String
  resetExpires : Option Nat
  joinedAt : Nat
deriving Repr, DecidableEq

/-- The `signup` table with its SERIAL id sequence. -/
structure Store where
  users : List UserRec
  nextId : Nat
deriving Repr, DecidableEq

/-- The JWT payload signed by `generateToken` (src/index.js:77-83):
`{ id, email, username }` plus the expiry instant (`expiresIn: "7d"`). -/
structure Claims where
  id : Nat
  email : String
  username : String
  exp : Nat
deriving Repr, DecidableEq

/-- Abstract model of an HMAC signature: the signature a holder of `secret`
computes over `signed`.  Two signatures are equal exactly when both the
secret and the signed payload agree, which models an ideal unforgeable MAC:
any alteration of payload or signature is detected by `jwtVerifyTok`. -/
structure SigVal where
  secret : String
  signed : Claims
deriving Repr, DecidableEq

/-- A token as it appears on the wire inside an Authorization header:
either a structurally well-formed JWT carrying a payload and a signature,
or an arbitrary non-JWT string (on which `jwt.verify` throws). -/
inductive TokenWire where
  | jwt (payload : Claims) (sig : SigVal)
  | garbage (raw : String)
deriving Repr, DecidableEq

/-- The user object embedded in JSON responses
(`{ id, username, email, createdAt / joined_at }`). -/
structure UserOut where
  id : Nat
  username : String
  email : String
  joinedAt : Nat
deriving Repr, DecidableEq

/-- An HTTP response: status plus the JSON body fields this backend uses.
A field that the handler leaves out of the JSON object is `none`. -/
structure Resp where
  status : Nat
  message : Option String := none
  token : Option TokenWire := none
  user : Option UserOut := none
  success : Option Bool := none
  error : Option String := none
deriving Repr, DecidableEq

/-- The fallback JWT secret at src/index.js:80 and 91 (`process.env.JWT_SECRET`
defaults to it; both sign and verify use the same value). -/
def jwtSecret : String := "your-secret-key-change-this"

/-- `expiresIn: "7d"` in milliseconds. -/
def sevenDays : Nat := 7 * 24 * 60 * 60 * 1000

/-- The reset-token lifetime `60 * 60 * 1000` at src/index.js:270. -/
def oneHour : Nat := 60 * 60 * 1000

/-- Modelled from the spec: the PasswordHasher collaborator (library
`bcryptjs`, outside src/).  `hash` is a one-way digest whose round-trip
contract is `verify(p, hash(p)) = true` and `verify(q, hash(p)) = false`
for `q ≠ p`; the random salt is irrelevant to those claims and elided. -/
def bhash (p : String) : String := "bcrypt$2b$10$" ++ p

/-- Modelled from the spec: `bcrypt.compare(plaintext, digest)`. -/
def bcompare (p digest : String) : Bool := digest == bhash p

/-- `jwt.sign(payload, secret)`: attach the ideal MAC of the payload. -/
def jwtSign (secret : String) (c : Claims) : TokenWire :=
  TokenWire.jwt c ⟨secret, c⟩

/-- `generateToken` (src/index.js:77-83): sign `{id, email, username}` with
the secret, expiring seven days from issuance. -/
def generateToken (u : UserRec) (now : Nat) : TokenWire :=
  jwtSign jwtSecret ⟨u.id, u.email, u.username, now + sevenDays⟩

/-- `jwt.verify(token, secret)` at time `now`: `none` models a throw
(malformed token, signature mismatch, or expiry reached). -/
def jwtVerifyTok (secret : String) (now : Nat) : TokenWire → Option Claims
  | TokenWire.jwt p s => if s = ⟨secret, p⟩ ∧ now < p.exp then some p else none
  | TokenWire.garbage _ => none

/-- Body of the 401 for a missing Authorization header (src/index.js:87). -/
def missingTokenResp : Resp :=
  { status := 401, success := some false, error := some "Missing token" }

/-- Body of the 401 for an unverifiable token (src/index.js:95). -/
def invalidTokenResp : Resp :=
  { status := 401, success := some false, error := some "Invalid or expired token" }

/-- `verifyToken` middleware (src/index.js:85-97).  The header is modelled as
the list of its space-separated parts (`authHeader.split(" ")`), each part a
`TokenWire`; `parts[1]?` models `split(" ")[1]`, which is `undefined` when
the header has a single part, making `jwt.verify` throw. -/
def verifyToken (now : Nat) (authHeader : Option (List TokenWire)) :
    Except Resp Claims :=
  match authHeader with
  | none => Except.error missingTokenResp
  | some parts =>
    match parts[1]? with
    | none => Except.error invalidTokenResp
    | some tw =>
      match jwtVerifyTok jwtSecret now tw with
      | none => Except.error invalidTokenResp
      | some c => Except.ok c

/-- `SELECT * FROM signup WHERE email = $1` then `rows[0]`. -/
def findByEmail (st : Store) (email : String) : Option UserRec :=
  st.users.find? (fun u => u.email == email)

/-- `SELECT ... FROM signup WHERE id=$1` then `rows[0]`. -/
def findById (st : Store) (uid : Nat) : Option UserRec :=
  st.users.find? (fun u => u.id == uid)

/-- `email.split('@')[0]` (src/index.js:173): the characters before the
first `@`, or the whole string when there is none. -/
def localPart (email : String) : String :=
  String.mk (email.data.takeWhile (fun c => c ≠ '@'))

/-- Projection of a row into the response user object. -/
def userOut (u : UserRec) : UserOut :=
  ⟨u.id, u.username, u.email, u.joinedAt⟩

/-- `INSERT INTO signup (email, username, password) VALUES ... RETURNING ...`
(src/index.js:179-182).  The UNIQUE constraints on `email` and `username`
(src/index.js:31-32) make a colliding insert raise error 23505, modelled as
`Except.error`; otherwise the row is appended with the next serial id and
NULL reset columns. -/
def insertSignup (st : Store) (email username password : String) (now : Nat) :
    Except Unit (UserRec × Store) :=
  if ∃ u ∈ st.users, u.email = email ∨ u.username = username then
    Except.error ()
  else
    let u : UserRec := ⟨st.nextId, username, email, password, none, none, now⟩
    Except.ok (u, ⟨st.users ++ [u], st.nextId + 1⟩)

/-- POST /api/signup handler (src/index.js:158-215).  Any error thrown
inside the try block — in particular the 23505 from a username collision,
which this handler, unlike the waitlist/funder ones, does not map to a
400 — falls into the catch and yields the generic 500. -/
def signup (st : Store) (email password : String) (now : Nat) : Resp × Store :=
  if email = "" ∨ password = "" then
    ({ status := 400, message := some "Email and password are required" }, st)
  else if password.length < 8 then
    ({ status := 400, message := some "Password must be at least 8 characters" }, st)
  else
    match findByEmail st email with
    | some _ => ({ status := 400, message := some "User already exists" }, st)
    | none =>
      match insertSignup st email (localPart email) (bhash password) now with
      | Except.error _ =>
        ({ status := 500, message := some "Server error during signup" }, st)
      | Except.ok (u, st2) =>
        ({ status := 201, message := some "Account created successfully",
           token := some (generateToken u now), user := some (userOut u) }, st2)

/-- POST /api/signin handler (src/index.js:218-252). -/
def signin (st : Store) (email password : String) (now : Nat) : Resp × Store :=
  if email = "" ∨ password = "" then
    ({ status := 400, message := some "Email and password required" }, st)
  else
    match findByEmail st email with
    | none => ({ status := 401, message := some "Invalid email or password" }, st)
    | some u =>
      if bcompare password u.password then
        ({ status := 200, message := some "Sign in successful",
           token := some (generateToken u now), user := some (userOut u) }, st)
      else
        ({ status := 401, message := some "Invalid email or password" }, st)

/-- `UPDATE signup SET reset_token=$1, reset_expires=$2 WHERE email=$3`
(src/index.js:272-275). -/
def setReset (st : Store) (email tok : String) (expires : Nat) : Store :=
  ⟨st.users.map (fun u =>
      if u.email = email then
        { u with resetToken := some tok, resetExpires := some expires }
      else u),
   st.nextId⟩

/-- POST /api/forgot-password handler (src/index.js:255-301).  `freshTok`
stands for `crypto.randomBytes(32).toString("hex")`; the reset email is
fire-and-forget and affects neither the response nor the store. -/
def forgotPassword (st : Store) (email freshTok : String) (now : Nat) :
    Resp × Store :=
  if email = "" then
    ({ status := 400, message := some "Email is required" }, st)
  else
    match findByEmail st email with
    | none =>
      ({ status := 200, message := some "If that email exists, we sent a reset link." }, st)
    | some _ =>
      ({ status := 200, message := some "If that email exists, we sent a reset link." },
       setReset st email freshTok (now + oneHour))

/-- `SELECT * FROM signup WHERE reset_token=$1 AND reset_expires > NOW()`
then `rows[0]` (src/index.js:314-318).  A NULL `reset_token` or
`reset_expires` never satisfies the SQL comparison. -/
def findValidReset (st : Store) (tok : String) (now : Nat) : Option UserRec :=
  st.users.find? (fun u =>
    u.resetToken == some tok &&
      match u.resetExpires with
      | some e => decide (now < e)
      | none => false)

/-- `UPDATE signup SET password=$1, reset_token=NULL, reset_expires=NULL
WHERE id=$2` (src/index.js:326-329). -/
def updatePasswordClear (st : Store) (uid : Nat) (newHash : String) : Store :=
  ⟨st.users.map (fun u =>
      if u.id = uid then
        { u with password := newHash, resetToken := none, resetExpires := none }
      else u),
   st.nextId⟩

/-- POST /api/reset-password handler (src/index.js:304-336). -/
def resetPassword (st : Store) (tok newPassword : String) (now : Nat) :
    Resp × Store :=
  if tok = "" ∨ newPassword = "" then
    ({ status := 400, message := some "Token and new password required" }, st)
  else if newPassword.length < 8 then
    ({ status := 400, message := some "Password must be at least 8 characters" }, st)
  else
    match findValidReset st tok now with
    | none => ({ status := 400, message := some "Invalid or expired reset token" }, st)
    | some u =>
      ({ status := 200, message := some "Password reset successfully! You can now sign in." },
       updatePasswordClear st u.id (bhash newPassword))

/-- Body of GET /api/me after the middleware (src/index.js:338-353):
404 when the id has no row, else `{ user }`. -/
def getMe (st : Store) (uid : Nat) : Resp :=
  match findById st uid with
  | none => { status := 404, message := some "User not found" }
  | some u => { status := 200, user := some (userOut u) }

/-- Body of GET /api/profile after the middleware (src/index.js:356-367):
always 200 with `{ success: true, user: rows[0] }`; when no row matches,
`rows[0]` is `undefined` and the `user` key is absent from the JSON. -/
def getProfile (st : Store) (uid : Nat) : Resp :=
  { status := 200, success := some true, user := (findById st uid).map userOut }

/-- GET /api/me composed with the `verifyToken` middleware. -/
def meRoute (st : Store) (now : Nat) (h : Option (List TokenWire)) : Resp :=
  match verifyToken now h with
  | Except.error r => r
  | Except.ok c => getMe st c.id

/-- GET /api/profile composed with the `verifyToken` middleware. -/
def profileRoute (st : Store) (now : Nat) (h : Option (List TokenWire)) : Resp :=
  match verifyToken now h with
  | Except.error r => r
  | Except.ok c => getProfile st c.id

/-- Per-store invariant: each row has `reset_token` and `reset_expires`
both set or both NULL. -/
def storeInv (st : Store) : Prop :=
  ∀ u ∈ st.users, u.resetToken.isSome = u.resetExpires.isSome

/-- C1: registering the same email twice does give the 400 "User already
exists" conflict response and leaves one record, but a collision on the
derived username alone — here `alice@y.com` after `alice@x.com`, both
deriving username `alice`, with `alice@y.com` not registered — makes the
INSERT raise the uniqueness violation, which the signup handler's catch
turns into the generic 500 "Server error during signup" instead of the
400 conflict response the claim requires. -/
theorem C1_username_collision_yields_server_error :
    let st0 : Store := ⟨[], 1⟩
    let r1 := signup st0 "alice@x.com" "password123" 0
    let r2 := signup r1.2 "alice@y.com" "password456" 5
    let r3 := signup r1.2 "alice@x.com" "password321" 5
    r1.1.status = 201 ∧
    findByEmail r1.2 "alice@y.com" = none ∧
    r2.1.status = 500 ∧ r2.1.message = some "Server error during signup" ∧
    r3.1.status = 400 ∧ r3.1.message = some "User already exists" ∧
    r3.2 = r1.2 ∧
    (r1.2.users.filter (fun u => u.email == "alice@x.com")).length = 1 := by
  decide

/-- C2 counterexample: with a store already holding the user registered as
`alice@x.com` (username `alice`), the pair `("alice@y.com", "password123")`
is valid — both fields present, password at least 8 characters, email not
registered — yet `register` answers 500, not 201, because the derived
username collides; so the claim as stated fails without a freshness
condition on the derived username. -/
theorem C2_counterexample :
    let st : Store := (signup ⟨[], 1⟩ "alice@x.com" "password123" 0).2
    ("alice@y.com" ≠ "" ∧ "password123" ≠ "" ∧ 8 ≤ "password123".length ∧
      findByEmail st "alice@y.com" = none) ∧
    (signup st "alice@y.com" "password123" 1).1.status = 500 := by
  decide

/-- C3 counterexample: after `consumeReset("tok1", "newpassword1")`
succeeds, the replayed call `consumeReset("tok1", "x")` does not fail with
the invalid-token response: the handler rejects the too-short password
first, answering 400 "Password must be at least 8 characters", so not
every later call with the consumed token yields the AuthError response. -/
theorem C3_counterexample :
    let u : UserRec :=
      ⟨1, "alice", "alice@x.com", bhash "password123", some "tok1", some 100, 0⟩
    let st : Store := ⟨[u], 2⟩
    (resetPassword st "tok1" "newpassword1" 50).1.status = 200 ∧
    (resetPassword (resetPassword st "tok1" "newpassword1" 50).2 "tok1" "x" 60).1 =
      { status := 400, message := some "Password must be at least 8 characters" } := by
  decide

theorem findByEmail_eq_none_iff (st : Store) (email : String) :
    findByEmail st email = none ↔ ∀ u ∈ st.users, u.email ≠ email := by
  simp [findByEmail, List.find?_eq_none]

theorem insertSignup_ok (st : Store) (email username password : String) (now : Nat)
    (h : ∀ u ∈ st.users, u.email ≠ email ∧ u.username ≠ username) :
    insertSignup st email username password now =
      Except.ok (⟨st.nextId, username, email, password, none, none, now⟩,
        ⟨st.users ++ [⟨st.nextId, username, email, password, none, none, now⟩],
         st.nextId + 1⟩) := by
  have hno : ¬∃ u ∈ st.users, u.email = email ∨ u.username = username := by
    rintro ⟨u, hu, hor⟩
    rcases hor with h1 | h2
    · exact (h u hu).1 h1
    · exact (h u hu).2 h2
  simp [insertSignup, hno]

theorem signup_fresh (st : Store) (email password : String) (now : Nat)
    (he : email ≠ "") (hp : password ≠ "") (hlen : 8 ≤ password.length)
    (hfresh : findByEmail st email = none)
    (huser : ∀ u ∈ st.users, u.username ≠ localPart email) :
    signup st email password now =
      ({ status := 201, message := some "Account created successfully",
         token := some (generateToken
           ⟨st.nextId, localPart email, email, bhash password, none, none, now⟩ now),
         user := some (userOut
           ⟨st.nextId, localPart email, email, bhash password, none, none, now⟩) },
       ⟨st.users ++ [⟨st.nextId, localPart email, email, bhash password, none, none, now⟩],
        st.nextId + 1⟩) := by
  have hne := (findByEmail_eq_none_iff st email).1 hfresh
  have hins := insertSignup_ok st email (localPart email) (bhash password) now
    (fun u hu => ⟨hne u hu, huser u hu⟩)
  have hl8 : ¬ password.length < 8 := by omega
  simp [signup, he, hp, hl8, hfresh, hins]

theorem find?_email_append (l : List UserRec) (u : UserRec) (email : String)
    (hne : ∀ v ∈ l, v.email ≠ email) (hu : u.email = email) :
    (l ++ [u]).find? (fun v => v.email == email) = some u := by
  rw [List.find?_append]
  have h1 : l.find? (fun v => v.email == email) = none := by
    rw [List.find?_eq_none]
    intro v hv
    simp [hne v hv]
  rw [h1]
  simp [List.find?_cons, hu]

theorem jwtVerifyTok_generateToken (u : UserRec) (t : Nat) :
    jwtVerifyTok jwtSecret t (generateToken u t) =
      some ⟨u.id, u.email, u.username, t + sevenDays⟩ := by
  simp only [generateToken, jwtSign, jwtVerifyTok]
  simp [sevenDays]

/-- C2 (amended): for valid credentials — email and password present,
password at least 8 characters, email unregistered — and additionally no
existing row holding the username derived from the email's local part,
`register` answers 201 and then `authenticate` with the same credentials
answers 200, and each response carries a token that verification with the
server secret accepts, yielding exactly that user's id, email and
username. -/
theorem C2_register_then_authenticate (st : Store) (email password : String)
    (now now2 : Nat)
    (he : email ≠ "") (hp : password ≠ "") (hlen : 8 ≤ password.length)
    (hfresh : findByEmail st email = none)
    (huser : ∀ u ∈ st.users, u.username ≠ localPart email) :
    (signup st email password now).1.status = 201 ∧
    ((signup st email password now).1.token.bind (jwtVerifyTok jwtSecret now)) =
      some ⟨st.nextId, email, localPart email, now + sevenDays⟩ ∧
    (signin (signup st email password now).2 email password now2).1.status = 200 ∧
    ((signin (signup st email password now).2 email password now2).1.token.bind
        (jwtVerifyTok jwtSecret now2)) =
      some ⟨st.nextId, email, localPart email, now2 + sevenDays⟩ := by
  rw [signup_fresh st email password now he hp hlen hfresh huser]
  refine ⟨rfl, ?_, ?_⟩
  · simp [jwtVerifyTok_generateToken]
  · have hfind2 : findByEmail
        ⟨st.users ++ [⟨st.nextId, localPart email, email, bhash password, none, none, now⟩],
         st.nextId + 1⟩ email =
        some ⟨st.nextId, localPart email, email, bhash password, none, none, now⟩ := by
      unfold findByEmail
      exact find?_email_append st.users _ email
        ((findByEmail_eq_none_iff st email).1 hfresh) rfl
    constructor
    · simp [signin, he, hp, hfind2, bcompare]
    · simp [signin, he, hp, hfind2, bcompare, jwtVerifyTok_generateToken]


/-- C2 witness: the amended theorem applied to the empty store and the
concrete credentials `("bob@x.com", "password123")`. -/
theorem C2_register_then_authenticate_witness :
    (signup ⟨[], 1⟩ "bob@x.com" "password123" 0).1.status = 201 ∧
    ((signup ⟨[], 1⟩ "bob@x.com" "password123" 0).1.token.bind
        (jwtVerifyTok jwtSecret 0)) =
      some ⟨1, "bob@x.com", localPart "bob@x.com", 0 + sevenDays⟩ ∧
    (signin (signup ⟨[], 1⟩ "bob@x.com" "password123" 0).2
        "bob@x.com" "password123" 3).1.status = 200 ∧
    ((signin (signup ⟨[], 1⟩ "bob@x.com" "password123" 0).2
        "bob@x.com" "password123" 3).1.token.bind (jwtVerifyTok jwtSecret 3)) =
      some ⟨1, "bob@x.com", localPart "bob@x.com", 3 + sevenDays⟩ :=
  C2_register_then_authenticate ⟨[], 1⟩ "bob@x.com" "password123" 0 3
    (by decide) (by decide) (by decide) (by decide) (by decide)

/-- C3 (amended): once `consumeReset(t, pw1)` has succeeded — `t` being held
by a unique row — every later `consumeReset(t, pw2)` whose new password
passes validation (present, at least 8 characters) fails with the 400
"Invalid or expired reset token" response, because the successful call
cleared the stored token and expiry in the same update as the password
change. -/
theorem C3_replay_rejected (st : Store) (tok pw1 pw2 : String) (now1 now2 : Nat)
    (u0 : UserRec)
    (hfind : findValidReset st tok now1 = some u0)
    (huniq : ∀ u ∈ st.users, u.resetToken = some tok → u.id = u0.id)
    (ht : tok ≠ "") (hp1 : pw1 ≠ "") (hl1 : 8 ≤ pw1.length)
    (hp2 : pw2 ≠ "") (hl2 : 8 ≤ pw2.length) :
    (resetPassword st tok pw1 now1).1.status = 200 ∧
    (resetPassword (resetPassword st tok pw1 now1).2 tok pw2 now2).1 =
      { status := 400, message := some "Invalid or expired reset token" } := by
  have hl1n : ¬ pw1.length < 8 := by omega
  have hl2n : ¬ pw2.length < 8 := by omega
  have h1 : resetPassword st tok pw1 now1 =
      ({ status := 200,
         message := some "Password reset successfully! You can now sign in." },
       updatePasswordClear st u0.id (bhash pw1)) := by
    simp [resetPassword, ht, hp1, hl1n, hfind]
  have hnone :
      findValidReset (updatePasswordClear st u0.id (bhash pw1)) tok now2 = none := by
    unfold findValidReset updatePasswordClear
    rw [List.find?_eq_none]
    intro v hv
    simp only [List.mem_map] at hv
    obtain ⟨u, hu, rfl⟩ := hv
    by_cases hid : u.id = u0.id
    · simp [hid]
    · have hnt : u.resetToken ≠ some tok := fun hh => hid (huniq u hu hh)
      simp [hid, hnt]
  rw [h1]
  simp [resetPassword, ht, hp2, hl2n, hnone]

/-- C4: a pending reset token held by a unique row with expiry `e` is
accepted (200) by the reset handler at every time strictly before `e` and
rejected with the 400 "Invalid or expired reset token" response at every
time at or after `e`, matching the SQL comparison `reset_expires > NOW()`. -/
theorem C4_expiry_boundary (st : Store) (u : UserRec) (tok pw : String)
    (e now : Nat)
    (hmem : u ∈ st.users) (htok : u.resetToken = some tok)
    (hexp : u.resetExpires = some e)
    (huniq : ∀ v ∈ st.users, v.resetToken = some tok → v = u)
    (ht : tok ≠ "") (hp : pw ≠ "") (hl : 8 ≤ pw.length) :
    (now < e → (resetPassword st tok pw now).1.status = 200) ∧
    (e ≤ now → (resetPassword st tok pw now).1 =
      { status := 400, message := some "Invalid or expired reset token" }) := by
  have hl8 : ¬ pw.length < 8 := by omega
  constructor
  · intro hlt
    have hnn : findValidReset st tok now ≠ none := by
      unfold findValidReset
      rw [Ne, List.find?_eq_none]
      push_neg
      exact ⟨u, hmem, by simp [htok, hexp, hlt]⟩
    rcases hv : findValidReset st tok now with _ | v
    · exact absurd hv hnn
    · simp [resetPassword, ht, hp, hl8, hv]
  · intro hge
    have hnone : findValidReset st tok now = none := by
      unfold findValidReset
      rw [List.find?_eq_none]
      intro v hv hpred
      rw [Bool.and_eq_true, beq_iff_eq] at hpred
      obtain ⟨hvt, hve⟩ := hpred
      have hv_eq : v = u := huniq v hv hvt
      subst hv_eq
      rw [hexp] at hve
      simp only [decide_eq_true_eq] at hve
      omega
    simp [resetPassword, ht, hp, hl8, hnone]


/-- C3 witness: the amended theorem applied to a one-row store holding
token `tok1` with expiry 100, consumed at time 50 and replayed at 60. -/
theorem C3_replay_rejected_witness :
    (resetPassword
      ⟨[⟨1, "alice", "alice@x.com", bhash "password123", some "tok1", some 100, 0⟩], 2⟩
      "tok1" "newpassword1" 50).1.status = 200 ∧
    (resetPassword
      (resetPassword
        ⟨[⟨1, "alice", "alice@x.com", bhash "password123", some "tok1", some 100, 0⟩], 2⟩
        "tok1" "newpassword1" 50).2
      "tok1" "newpassword2" 60).1 =
      { status := 400, message := some "Invalid or expired reset token" } :=
  C3_replay_rejected
    ⟨[⟨1, "alice", "alice@x.com", bhash "password123", some "tok1", some 100, 0⟩], 2⟩
    "tok1" "newpassword1" "newpassword2" 50 60
    ⟨1, "alice", "alice@x.com", bhash "password123", some "tok1", some 100, 0⟩
    (by decide) (by decide) (by decide) (by decide) (by decide) (by decide) (by decide)

/-- C4 witness: with expiry instant 100, the concrete store's token is
accepted at time 99 and rejected at time 100. -/
theorem C4_expiry_boundary_witness :
    (resetPassword
      ⟨[⟨1, "alice", "alice@x.com", bhash "password123", some "tok1", some 100, 0⟩], 2⟩
      "tok1" "newpassword1" 99).1.status = 200 ∧
    (resetPassword
      ⟨[⟨1, "alice", "alice@x.com", bhash "password123", some "tok1", some 100, 0⟩], 2⟩
      "tok1" "newpassword1" 100).1 =
      { status := 400, message := some "Invalid or expired reset token" } :=
  ⟨(C4_expiry_boundary
      ⟨[⟨1, "alice", "alice@x.com", bhash "password123", some "tok1", some 100, 0⟩], 2⟩
      ⟨1, "alice", "alice@x.com", bhash "password123", some "tok1", some 100, 0⟩
      "tok1" "newpassword1" 100 99
      (by decide) (by decide) (by decide) (by decide) (by decide) (by decide)
      (by decide)).1 (by decide),
   (C4_expiry_boundary
      ⟨[⟨1, "alice", "alice@x.com", bhash "password123", some "tok1", some 100, 0⟩], 2⟩
      ⟨1, "alice", "alice@x.com", bhash "password123", some "tok1", some 100, 0⟩
      "tok1" "newpassword1" 100 100
      (by decide) (by decide) (by decide) (by decide) (by decide) (by decide)
      (by decide)).2 (by decide)⟩

/-- C5: the 401 answered to a signin with an unknown email and the 401
answered to a signin with a registered email but non-matching password are
the same full response (status and body), so a caller cannot tell the two
apart. -/
theorem C5_auth_failure_indistinguishable (st : Store) (e1 p1 e2 p2 : String)
    (now1 now2 : Nat) (u : UserRec)
    (he1 : e1 ≠ "") (hp1 : p1 ≠ "") (he2 : e2 ≠ "") (hp2 : p2 ≠ "")
    (hunknown : findByEmail st e1 = none)
    (hfound : findByEmail st e2 = some u)
    (hbad : bcompare p2 u.password = false) :
    (signin st e1 p1 now1).1 = (signin st e2 p2 now2).1 ∧
    (signin st e1 p1 now1).1 =
      { status := 401, message := some "Invalid email or password" } := by
  have h1 : (signin st e1 p1 now1).1 =
      { status := 401, message := some "Invalid email or password" } := by
    simp [signin, he1, hp1, hunknown]
  have h2 : (signin st e2 p2 now2).1 =
      { status := 401, message := some "Invalid email or password" } := by
    simp [signin, he2, hp2, hfound, hbad]
  exact ⟨h1.trans h2.symm, h1⟩

/-- C5 witness: concrete store holding only `alice@x.com`; signin with the
unknown `bob@x.com` and signin with `alice@x.com` but the wrong password
produce the identical 401 response. -/
theorem C5_auth_failure_indistinguishable_witness :
    (signin ⟨[⟨1, "alice", "alice@x.com", bhash "password123", none, none, 0⟩], 2⟩
        "bob@x.com" "whatever1" 3).1 =
      (signin ⟨[⟨1, "alice", "alice@x.com", bhash "password123", none, none, 0⟩], 2⟩
        "alice@x.com" "wrongpass" 4).1 ∧
    (signin ⟨[⟨1, "alice", "alice@x.com", bhash "password123", none, none, 0⟩], 2⟩
        "bob@x.com" "whatever1" 3).1 =
      { status := 401, message := some "Invalid email or password" } :=
  C5_auth_failure_indistinguishable
    ⟨[⟨1, "alice", "alice@x.com", bhash "password123", none, none, 0⟩], 2⟩
    "bob@x.com" "whatever1" "alice@x.com" "wrongpass" 3 4
    ⟨1, "alice", "alice@x.com", bhash "password123", none, none, 0⟩
    (by decide) (by decide) (by decide) (by decide) (by decide) (by decide)
    (by decide)

/-- C6: for any non-empty email, the forgot-password response is the same
200 acknowledgement whether or not a row with that email exists; only the
store differs — unchanged when the email is unknown, and when it is known
every row with that email carries the fresh token and the one-hour expiry
while all other rows are untouched. -/
theorem C6_request_reset_uniform (st : Store) (email tok : String) (now : Nat)
    (he : email ≠ "") :
    (forgotPassword st email tok now).1 =
      { status := 200, message := some "If that email exists, we sent a reset link." } ∧
    (findByEmail st email = none → (forgotPassword st email tok now).2 = st) ∧
    (findByEmail st email ≠ none →
      ∀ v ∈ (forgotPassword st email tok now).2.users,
        (v.email = email →
          v.resetToken = some tok ∧ v.resetExpires = some (now + oneHour)) ∧
        (v.email ≠ email → v ∈ st.users)) := by
  refine ⟨?_, ?_, ?_⟩
  · cases hf : findByEmail st email with
    | none => simp [forgotPassword, he, hf]
    | some u => simp [forgotPassword, he, hf]
  · intro hf
    simp [forgotPassword, he, hf]
  · intro hf
    cases hfe : findByEmail st email with
    | none => exact absurd hfe hf
    | some u =>
      intro v hv
      have hv2 : v ∈ (setReset st email tok (now + oneHour)).users := by
        simpa [forgotPassword, he, hfe] using hv
      unfold setReset at hv2
      simp only [List.mem_map] at hv2
      obtain ⟨w, hw, rfl⟩ := hv2
      by_cases hwe : w.email = email
      · rw [if_pos hwe]
        exact ⟨fun _ => ⟨rfl, rfl⟩, fun hne => absurd hwe hne⟩
      · rw [if_neg hwe]
        exact ⟨fun hh => absurd hh hwe, fun _ => hw⟩

/-- C6 witness: on a one-row store, the response for the registered
`alice@x.com` equals the response for the unknown `bob@x.com`, the store
is untouched in the unknown case, and the registered row receives the
token and expiry in the known case. -/
theorem C6_request_reset_uniform_witness :
    ((forgotPassword ⟨[⟨1, "alice", "alice@x.com", bhash "password123", none, none, 0⟩], 2⟩
        "bob@x.com" "tokB" 7).1 =
      { status := 200, message := some "If that email exists, we sent a reset link." } ∧
     (findByEmail ⟨[⟨1, "alice", "alice@x.com", bhash "password123", none, none, 0⟩], 2⟩
        "bob@x.com" = none →
      (forgotPassword ⟨[⟨1, "alice", "alice@x.com", bhash "password123", none, none, 0⟩], 2⟩
        "bob@x.com" "tokB" 7).2 =
        ⟨[⟨1, "alice", "alice@x.com", bhash "password123", none, none, 0⟩], 2⟩)) ∧
    (forgotPassword ⟨[⟨1, "alice", "alice@x.com", bhash "password123", none, none, 0⟩], 2⟩
        "alice@x.com" "tokA" 7).1 =
      { status := 200, message := some "If that email exists, we sent a reset link." } :=
  ⟨⟨(C6_request_reset_uniform
      ⟨[⟨1, "alice", "alice@x.com", bhash "password123", none, none, 0⟩], 2⟩
      "bob@x.com" "tokB" 7 (by decide)).1,
    (C6_request_reset_uniform
      ⟨[⟨1, "alice", "alice@x.com", bhash "password123", none, none, 0⟩], 2⟩
      "bob@x.com" "tokB" 7 (by decide)).2.1⟩,
   (C6_request_reset_uniform
      ⟨[⟨1, "alice", "alice@x.com", bhash "password123", none, none, 0⟩], 2⟩
      "alice@x.com" "tokA" 7 (by decide)).1⟩

/-- C7: the `verifyToken` middleware is a total function whose outcome is
always either a 401 rejection or the decoded claims (never a crash); a
missing Authorization header yields the "Missing token" 401; a header with
no second part, a non-JWT second part, a signature not matching the
server's MAC over the payload, or a reached expiry yields the "Invalid or
expired token" 401; and a genuinely signed unexpired token passes the
decoded claims through. -/
theorem C7_middleware_contract (now : Nat) (h : Option (List TokenWire)) :
    ((∃ r, verifyToken now h = Except.error r ∧ r.status = 401) ∨
      (∃ c, verifyToken now h = Except.ok c)) ∧
    (h = none → verifyToken now h = Except.error missingTokenResp) ∧
    (∀ parts, h = some parts →
      (parts[1]? = none → verifyToken now h = Except.error invalidTokenResp) ∧
      (∀ raw, parts[1]? = some (TokenWire.garbage raw) →
        verifyToken now h = Except.error invalidTokenResp) ∧
      (∀ p s, parts[1]? = some (TokenWire.jwt p s) →
        ((s ≠ ⟨jwtSecret, p⟩ ∨ p.exp ≤ now) →
          verifyToken now h = Except.error invalidTokenResp) ∧
        (s = ⟨jwtSecret, p⟩ → now < p.exp →
          verifyToken now h = Except.ok p))) := by
  refine ⟨?_, ?_, ?_⟩
  · cases h with
    | none => exact Or.inl ⟨missingTokenResp, rfl, rfl⟩
    | some parts =>
      cases hidx : parts[1]? with
      | none => exact Or.inl ⟨invalidTokenResp, by simp [verifyToken, hidx], rfl⟩
      | some tw =>
        cases hjv : jwtVerifyTok jwtSecret now tw with
        | none =>
          exact Or.inl ⟨invalidTokenResp, by simp [verifyToken, hidx, hjv], rfl⟩
        | some c => exact Or.inr ⟨c, by simp [verifyToken, hidx, hjv]⟩
  · rintro rfl
    rfl
  · rintro parts rfl
    refine ⟨?_, ?_, ?_⟩
    · intro hidx
      simp [verifyToken, hidx]
    · intro raw hidx
      simp [verifyToken, hidx, jwtVerifyTok]
    · intro p s hidx
      constructor
      · intro hbad
        have hjv : jwtVerifyTok jwtSecret now (TokenWire.jwt p s) = none := by
          simp only [jwtVerifyTok]
          rw [if_neg]
          rintro ⟨h1, h2⟩
          rcases hbad with hb | hb
          · exact hb h1
          · omega
        simp [verifyToken, hidx, hjv]
      · intro hs hex
        have hjv : jwtVerifyTok jwtSecret now (TokenWire.jwt p s) = some p := by
          simp only [jwtVerifyTok]
          rw [if_pos ⟨hs, hex⟩]
        simp [verifyToken, hidx, hjv]

/-- C7 witness: the contract applied to a missing header at time 0. -/
theorem C7_middleware_contract_witness :
    verifyToken 0 none = Except.error missingTokenResp :=
  (C7_middleware_contract 0 none).2.1 rfl

/-- C8: whenever forgot-password finds an account for the (non-empty)
email, every row persisted for that email carries `resetExpires = now +
60 * 60 * 1000` — one hour, the canonical duration — and such a row
exists. -/
theorem C8_reset_expiry_one_hour (st : Store) (email tok : String) (now : Nat)
    (u : UserRec) (he : email ≠ "") (hfound : findByEmail st email = some u) :
    (∀ w ∈ (forgotPassword st email tok now).2.users,
      w.email = email → w.resetExpires = some (now + 60 * 60 * 1000)) ∧
    ∃ v ∈ (forgotPassword st email tok now).2.users, v.email = email := by
  have hstore : (forgotPassword st email tok now).2 =
      setReset st email tok (now + oneHour) := by
    simp [forgotPassword, he, hfound]
  have hmem : u ∈ st.users := by
    have := List.mem_of_find?_eq_some hfound
    exact this
  have hue : u.email = email := by
    have := List.find?_some hfound
    simpa using this
  rw [hstore]
  constructor
  · intro w hw hwe
    unfold setReset at hw
    simp only [List.mem_map] at hw
    obtain ⟨x, hx, rfl⟩ := hw
    by_cases hxe : x.email = email
    · rw [if_pos hxe]
      rfl
    · rw [if_neg hxe] at hwe ⊢
      exact absurd hwe hxe
  · refine ⟨if u.email = email then
        { u with resetToken := some tok, resetExpires := some (now + oneHour) }
      else u, ?_, ?_⟩
    · unfold setReset
      simp only [List.mem_map]
      exact ⟨u, hmem, rfl⟩
    · rw [if_pos hue]
      exact hue

/-- C8 witness: on a one-row store at time 7, the persisted expiry is
`7 + 3600000`. -/
theorem C8_reset_expiry_one_hour_witness :
    (∀ w ∈ (forgotPassword
        ⟨[⟨1, "alice", "alice@x.com", bhash "password123", none, none, 0⟩], 2⟩
        "alice@x.com" "tokA" 7).2.users,
      w.email = "alice@x.com" → w.resetExpires = some (7 + 60 * 60 * 1000)) ∧
    ∃ v ∈ (forgotPassword
        ⟨[⟨1, "alice", "alice@x.com", bhash "password123", none, none, 0⟩], 2⟩
        "alice@x.com" "tokA" 7).2.users, v.email = "alice@x.com" :=
  C8_reset_expiry_one_hour
    ⟨[⟨1, "alice", "alice@x.com", bhash "password123", none, none, 0⟩], 2⟩
    "alice@x.com" "tokA" 7
    ⟨1, "alice", "alice@x.com", bhash "password123", none, none, 0⟩
    (by decide) (by decide)


theorem storeInv_append (st : Store) (r : UserRec) (n : Nat)
    (hinv : storeInv st) (hr : r.resetToken.isSome = r.resetExpires.isSome) :
    storeInv ⟨st.users ++ [r], n⟩ := by
  intro u hu
  rcases List.mem_append.1 hu with hA | hB
  · exact hinv u hA
  · rcases List.mem_singleton.1 hB with rfl
    exact hr

theorem storeInv_setReset (st : Store) (email tok : String) (e : Nat)
    (hinv : storeInv st) : storeInv (setReset st email tok e) := by
  intro u hu
  unfold setReset at hu
  simp only [List.mem_map] at hu
  obtain ⟨w, hw, rfl⟩ := hu
  by_cases hwe : w.email = email
  · simp [hwe]
  · simpa [hwe] using hinv w hw

theorem storeInv_updateClear (st : Store) (uid : Nat) (nh : String)
    (hinv : storeInv st) : storeInv (updatePasswordClear st uid nh) := by
  intro u hu
  unfold updatePasswordClear at hu
  simp only [List.mem_map] at hu
  obtain ⟨w, hw, rfl⟩ := hu
  by_cases hid : w.id = uid
  · simp [hid]
  · simpa [hid] using hinv w hw

theorem signin_store_eq (st : Store) (email pw : String) (now : Nat) :
    (signin st email pw now).2 = st := by
  unfold signin
  split
  · rfl
  · split
    · rfl
    · split <;> rfl

theorem signup_store_cases (st : Store) (email pw : String) (now : Nat) :
    (signup st email pw now).2 = st ∨
    ∃ r : UserRec, r.resetToken = none ∧ r.resetExpires = none ∧
      (signup st email pw now).2 = ⟨st.users ++ [r], st.nextId + 1⟩ := by
  unfold signup
  split
  · exact Or.inl rfl
  · split
    · exact Or.inl rfl
    · split
      · exact Or.inl rfl
      · by_cases hcol : ∃ u ∈ st.users, u.email = email ∨ u.username = localPart email
        · exact Or.inl (by simp [insertSignup, hcol])
        · exact Or.inr ⟨⟨st.nextId, localPart email, email, bhash pw, none, none, now⟩,
            rfl, rfl, by simp [insertSignup, hcol]⟩

theorem forgotPassword_store_cases (st : Store) (email tok : String) (now : Nat) :
    (forgotPassword st email tok now).2 = st ∨
    (forgotPassword st email tok now).2 = setReset st email tok (now + oneHour) := by
  unfold forgotPassword
  split
  · exact Or.inl rfl
  · split
    · exact Or.inl rfl
    · exact Or.inr rfl

theorem resetPassword_store_cases (st : Store) (tok npw : String) (now : Nat) :
    (resetPassword st tok npw now).2 = st ∨
    ∃ uid, (resetPassword st tok npw now).2 =
      updatePasswordClear st uid (bhash npw) := by
  unfold resetPassword
  split
  · exact Or.inl rfl
  · split
    · exact Or.inl rfl
    · split
      · exact Or.inl rfl
      · exact Or.inr ⟨_, rfl⟩

/-- C9: every operation of the subsystem preserves the per-row invariant
that `reset_token` and `reset_expires` are both set or both NULL: signup
inserts with both NULL, signin writes nothing, forgot-password sets both
in one UPDATE, reset-password clears both in one UPDATE, and the read-self
routes perform no store write at all (their embeddings return only a
response). -/
theorem C9_reset_pair_invariant (st : Store) (email pw tok npw : String)
    (now : Nat) (hinv : storeInv st) :
    storeInv (signup st email pw now).2 ∧
    storeInv (signin st email pw now).2 ∧
    storeInv (forgotPassword st email tok now).2 ∧
    storeInv (resetPassword st tok npw now).2 := by
  refine ⟨?_, ?_, ?_, ?_⟩
  · rcases signup_store_cases st email pw now with hc | ⟨r, hrt, hre, hc⟩
    · rw [hc]; exact hinv
    · rw [hc]
      exact storeInv_append st r (st.nextId + 1) hinv (by simp [hrt, hre])
  · rw [signin_store_eq]
    exact hinv
  · rcases forgotPassword_store_cases st email tok now with hc | hc
    · rw [hc]; exact hinv
    · rw [hc]; exact storeInv_setReset st email tok (now + oneHour) hinv
  · rcases resetPassword_store_cases st tok npw now with hc | ⟨uid, hc⟩
    · rw [hc]; exact hinv
    · rw [hc]; exact storeInv_updateClear st uid (bhash npw) hinv

/-- C9 witness: the invariant is preserved by all four mutating operations
starting from a concrete one-row store that satisfies it. -/
theorem C9_reset_pair_invariant_witness :
    storeInv (signup
      ⟨[⟨1, "alice", "alice@x.com", bhash "password123", none, none, 0⟩], 2⟩
      "bob@x.com" "password456" 3).2 ∧
    storeInv (signin
      ⟨[⟨1, "alice", "alice@x.com", bhash "password123", none, none, 0⟩], 2⟩
      "bob@x.com" "password456" 3).2 ∧
    storeInv (forgotPassword
      ⟨[⟨1, "alice", "alice@x.com", bhash "password123", none, none, 0⟩], 2⟩
      "bob@x.com" "tokB" 3).2 ∧
    storeInv (resetPassword
      ⟨[⟨1, "alice", "alice@x.com", bhash "password123", none, none, 0⟩], 2⟩
      "tokB" "password456" 3).2 :=
  C9_reset_pair_invariant
    ⟨[⟨1, "alice", "alice@x.com", bhash "password123", none, none, 0⟩], 2⟩
    "bob@x.com" "password456" "tokB" "password456" 3
    (by intro u hu; fin_cases hu; rfl)

/-- C10: under the same valid bearer token whose subject id has no row in
the store, GET /api/profile answers 200 with `success: true` and no `user`
field, while GET /api/me answers 404 "User not found" — the two protected
read-self routes diverge on this edge case. -/
theorem C10_profile_vs_me_divergence (st : Store) (now : Nat)
    (h : Option (List TokenWire)) (c : Claims)
    (hok : verifyToken now h = Except.ok c)
    (hmiss : findById st c.id = none) :
    profileRoute st now h = { status := 200, success := some true } ∧
    meRoute st now h = { status := 404, message := some "User not found" } := by
  constructor
  · simp [profileRoute, hok, getProfile, hmiss]
  · simp [meRoute, hok, getMe, hmiss]

/-- C10 witness: a genuinely signed unexpired token for id 7 over the
empty store. -/
theorem C10_profile_vs_me_divergence_witness :
    profileRoute ⟨[], 1⟩ 0
        (some [TokenWire.garbage "Bearer",
               jwtSign jwtSecret ⟨7, "gone@x.com", "gone", 10⟩]) =
      { status := 200, success := some true } ∧
    meRoute ⟨[], 1⟩ 0
        (some [TokenWire.garbage "Bearer",
               jwtSign jwtSecret ⟨7, "gone@x.com", "gone", 10⟩]) =
      { status := 404, message := some "User not found" } :=
  C10_profile_vs_me_divergence ⟨[], 1⟩ 0
    (some [TokenWire.garbage "Bearer",
           jwtSign jwtSecret ⟨7, "gone@x.com", "gone", 10⟩])
    ⟨7, "gone@x.com", "gone", 10⟩ rfl rfl

end Joyxora
